import Mathlib

/-!
Verification development for the Gemini image MCP server
(`index.ts` and `src/photography-enhanced.ts`).

The TypeScript source is shallowly embedded: the prompt builders and the
response/persistence pipeline become pure Lean functions; the external
collaborators (the Gemini network call, the `sharp` codec, base64 decoding
and the filesystem) are passed in as explicit function arguments or as an
explicit file-table state.  JavaScript truthiness on optional strings,
booleans and template interpolation of `undefined` are modelled by small
helper functions.
-/

namespace GeminiImageMcp

/-! ## JavaScript semantics helpers -/

/-- Truthiness of an optional JS string (`undefined` and `""` are falsy). -/
def jsTruthyStr : Option String → Bool
  | some s => s != ""
  | none => false

/-- Truthiness of optional JS boolean (`undefined` falsy). -/
def jsTruthyBool : Option Bool → Bool
  | some b => b
  | none => false

/-- JS `v || d` on an optional string: `undefined` and `""` fall to `d`. -/
def jsOrStr (v : Option String) (d : String) : String :=
  match v with
  | some s => if s = "" then d else s
  | none => d

/-- JS template interpolation of a possibly-`undefined` string:
`${undefined}` renders as the literal text `undefined`. -/
def tsInterp (v : Option String) : String := v.getD "undefined"

/-! ## GenerationResponse data model (Gemini candidate/part tree) -/

/-- One response part: optional text, optional inline (base64) payload.
Mirrors `part.text` / `part.inlineData.data` of the Gemini SDK. -/
structure Part where
  text : Option String := none
  inlineData : Option String := none
deriving Repr, DecidableEq

def mkTextPart (t : String) : Part := { text := some t }

def mkInlinePart (d : String) : Part := { inlineData := some d }

structure Candidate where
  parts : List Part
deriving Repr, DecidableEq

structure GenerationResponse where
  candidates : List Candidate
deriving Repr, DecidableEq

/-- `response.candidates?.[0]?.content.parts || []`. -/
def firstCandidateParts (r : GenerationResponse) : List Part :=
  match r.candidates with
  | [] => []
  | c :: _ => c.parts

/-- Whether a part passes the `if (part.inlineData?.data)` truthiness test. -/
def partHasPayload (p : Part) : Bool :=
  match p.inlineData with
  | some d => d != ""
  | none => false

/-- The loop `for (const part of parts) if (part.inlineData?.data) ...`:
return the first truthy inline payload, scanning in order. -/
def findFirstInlineData : List Part → Option String
  | [] => none
  | p :: ps =>
    match p.inlineData with
    | some d => if d = "" then findFirstInlineData ps else some d
    | none => findFirstInlineData ps

/-! ## Artifact persistence (`saveGeneratedImage`) -/

/-- File table of the output directory: (path, byte length) per written file. -/
structure FsState where
  files : List (String × Nat)
deriving Repr, DecidableEq

inductive SaveError where
  | sizeLimit
  | codec
deriving Repr, DecidableEq

/-- Error message produced by `saveGeneratedImage`'s catch-and-rewrap. -/
def saveErrorMessage : SaveError → String
  | .sizeLimit => "Failed to save image: Generated image exceeds 50MB limit"
  | .codec => "Failed to save image: sharp re-encoding failed"

/-- `50 * 1024 * 1024` from the source. -/
def sizeLimitBytes : Nat := 50 * 1024 * 1024

/-- `saveGeneratedImage(imageData, filename)`.
`decode` models `Buffer.from(imageData, "base64")` (bytes of the decoded
payload); `png` models the `sharp(buffer).png()` re-encoder, `none` when
the codec rejects the bytes.  The size check happens after decoding and
before any write; on success the written file's length is the re-encoded
length. -/
def saveGeneratedImage (decode : String → List Nat) (png : List Nat → Option (List Nat))
    (outputDir : String) (imageData : String) (filename : String) (fs : FsState) :
    Except SaveError (String × FsState) :=
  let filepath := outputDir ++ "/" ++ filename
  let buffer := decode imageData
  if buffer.length > sizeLimitBytes then
    .error .sizeLimit
  else
    match png buffer with
    | none => .error .codec
    | some out => .ok (filepath, ⟨(filepath, out.length) :: fs.files⟩)

/-! ## Filenames: decimal timestamps and slug sanitization -/

/-- Decimal digit character, used to model JS number-to-string in
`` `...-${Date.now()}.png` ``. -/
def digitChar (d : Nat) : Char := Char.ofNat (48 + d)

/-- Decimal rendering of a `Nat`, exactly as a JS template renders an
integer (most significant digit first, `"0"` for zero). -/
def natToString (n : Nat) : String :=
  if n = 0 then "0" else ⟨((Nat.digits 10 n).map digitChar).reverse⟩

/-- Numeric value of a decimal digit character. -/
def digitVal (c : Char) : Nat := c.toNat - 48

/-- Numeric value of a big-endian decimal digit string. -/
def digitsVal (l : List Char) : Nat := Nat.ofDigits 10 (l.reverse.map digitVal)

/-- Per-character model of `.replace(/[^a-z0-9]/gi, '-')`: ASCII letters and
digits are kept, every other character becomes a hyphen. -/
def jsReplaceNonAlnum (c : Char) : Char :=
  if (65 ≤ c.toNat ∧ c.toNat ≤ 90) ∨ (97 ≤ c.toNat ∧ c.toNat ≤ 122) ∨
      (48 ≤ c.toNat ∧ c.toNat ≤ 57) then c else '-'

/-- Per-character model of `.toLowerCase()` on the ASCII range (the
sanitized slug only contains ASCII characters by the time it is lowercased). -/
def jsLowerChar (c : Char) : Char :=
  if 65 ≤ c.toNat ∧ c.toNat ≤ 90 then Char.ofNat (c.toNat + 32) else c

/-- `s.replace(/[^a-z0-9]/gi, '-').toLowerCase()`. -/
def sanitizeSlug (s : String) : String :=
  ⟨(s.data.map jsReplaceNonAlnum).map jsLowerChar⟩

/-- `` `${pfx}-${slugSource.replace(/[^a-z0-9]/gi,'-').toLowerCase()}-${Date.now()}.png` ``
(the `logo-`, `product-`, `food-`, `portrait-` filename builders). -/
def mkSlugFilename (pfx slugSource : String) (now : Nat) : String :=
  pfx ++ "-" ++ sanitizeSlug slugSource ++ "-" ++ natToString now ++ ".png"

/-- `` `marketing-${Date.now()}.png` `` (no slug component). -/
def mkPlainFilename (pfx : String) (now : Nat) : String :=
  pfx ++ "-" ++ natToString now ++ ".png"

/-- Character set of a sanitized slug: ASCII lowercase, digit, or hyphen. -/
def isLowerAlnumOrDash (c : Char) : Bool :=
  (decide (97 ≤ c.toNat) && decide (c.toNat ≤ 122)) ||
  (decide (48 ≤ c.toNat) && decide (c.toNat ≤ 57)) || c == '-'

/-- Decimal digit test over code points. -/
def isDigitChar (c : Char) : Bool :=
  decide (48 ≤ c.toNat) && decide (c.toNat ≤ 57)

/-- Chars of a filename with the trailing `".png"` removed. -/
def stripExt (s : String) : List Char := s.data.take (s.data.length - 4)

/-- The segment after the last hyphen. -/
def afterLastDash (l : List Char) : List Char :=
  (l.reverse.takeWhile (fun c => c != '-')).reverse

/-- The numeric timestamp suffix encoded in a generated filename: the decimal
value of the digit run between the last hyphen and the `.png` marker. -/
def timestampOf (s : String) : Nat := digitsVal (afterLastDash (stripExt s))

/-! ## Prompt compiler: `buildPhotographyPrompt` (index.ts) -/

/-- The marketing tool's `businessContext` argument. -/
structure BusinessContext where
  type : String
  audience : String
  purpose : String
deriving Repr, DecidableEq

/-- Argument record of `buildPhotographyPrompt`; absent optional properties
are `none`, and the destructuring defaults of the source are applied with
`Option.getD` at use sites. -/
structure PhotoConfig where
  subject : String
  shotType : Option String := none
  lens : Option String := none
  lighting : Option String := none
  mood : Option String := none
  environment : Option String := none
  technical : Option String := none
  businessContext : Option BusinessContext := none

/-- `if (businessContext) prompt += ...` clause. -/
def bcClause : Option BusinessContext → String
  | some bc => " for " ++ bc.type ++ " business targeting " ++ bc.audience
  | none => ""

/-- `buildPhotographyPrompt` from index.ts, with the source's destructuring
defaults for the optional fields. -/
def buildPhotographyPrompt (config : PhotoConfig) : String :=
  "A photorealistic " ++ config.shotType.getD "professional shot" ++ " of " ++ config.subject
  ++ bcClause config.businessContext
  ++ ". The scene is set in " ++ config.environment.getD "clean, professional environment" ++ ". "
  ++ "The scene is illuminated by " ++ config.lighting.getD "studio three-point lighting"
  ++ ", creating a " ++ config.mood.getD "professional and trustworthy" ++ " atmosphere. "
  ++ "Captured with a " ++ config.lens.getD "85mm portrait lens"
  ++ ", emphasizing " ++ config.technical.getD "sharp focus with perfect exposure" ++ ". "
  ++ "Commercial photography quality with perfect color accuracy and professional composition."

/-! ## Prompt compiler: `createBusinessLogo` (index.ts) -/

structure LogoStyle where
  type : String
  industry : Option String := none
  colors : Option (List String) := none
  includeIcon : Option Bool := none
  iconDescription : Option String := none

structure LogoFormat where
  background : String := "white"
  orientation : String := "horizontal"

/-- The font clause selected by the nested conditional on `style.type`. -/
def logoFontClause (t : String) : String :=
  if t = "modern" then "clean sans-serif font with geometric proportions"
  else if t = "classic" then "traditional serif font with elegant letterforms"
  else if t = "minimalist" then "ultra-clean, lightweight font with perfect spacing"
  else if t = "creative" then "artistic font that maintains excellent readability"
  else "professional corporate font with strong character definition"

/-- `style.colors?.length ? style.colors.join(", ") : "professional brand colors with strong contrast"`. -/
def logoColorClause : Option (List String) → String
  | some cs => if cs.length = 0 then "professional brand colors with strong contrast"
               else String.intercalate ", " cs
  | none => "professional brand colors with strong contrast"

/-- The logo prompt built by the `createBusinessLogo` handler. -/
def createBusinessLogoPrompt (businessName : String) (tagline : Option String)
    (style : LogoStyle) (format : Option LogoFormat) : String :=
  "Create a professional " ++ style.type ++ " logo design with exceptional typography quality. "
  ++ "The primary text " ++ "\"" ++ businessName ++ "\""
  ++ " must be rendered with crystal-clear legibility using a " ++ style.type ++ " "
  ++ logoFontClause style.type
  ++ ". "
  ++ (if jsTruthyStr tagline then
        "Include the tagline " ++ "\"" ++ tagline.getD "" ++ "\""
        ++ " in smaller, complementary typography that harmonizes perfectly with the main text. "
      else "")
  ++ (if jsTruthyBool style.includeIcon then
        "Integrate "
        ++ jsOrStr style.iconDescription (jsOrStr style.industry "business" ++ "-related symbol")
        ++ " as a sophisticated icon that complements the typography without overwhelming it. "
      else "")
  ++ "Color palette: " ++ logoColorClause style.colors ++ ". "
  ++ "Layout: " ++ jsOrStr (format.map (·.orientation)) "horizontal"
  ++ " orientation with perfect balance and spacing. "
  ++ "Background: " ++ jsOrStr (format.map (·.background)) "white"
  ++ " for maximum versatility across applications. "
  ++ "The design should be vector-style with crisp, clean edges and professional typography suitable for "
  ++ "business cards, website headers, signage, and corporate materials. "
  ++ "High-resolution execution with perfect text clarity at all sizes, "
  ++ "following " ++ jsOrStr style.industry "business"
  ++ " industry standards for professional branding."

/-! ## Prompt compiler: `createProductMockup` (index.ts) -/

structure MockupProduct where
  name : String
  type : String
  description : String
  branding : Option String := none

structure MockupSetting where
  environment : String
  background : String
  angle : String

structure MockupStyle where
  lighting : String := "studio-professional"
  colors : Option (List String) := none

/-- `${style?.colors?.length ? `Brand colors: ...` : ""}`. -/
def mockupColorClause : Option MockupStyle → String
  | some st =>
    match st.colors with
    | some cs => if cs.length = 0 then "" else "Brand colors: " ++ String.intercalate ", " cs ++ ". "
    | none => ""
  | none => ""

/-- The mockup prompt built by the `createProductMockup` handler. -/
def createProductMockupPrompt (product : MockupProduct) (setting : MockupSetting)
    (style : Option MockupStyle) : String :=
  "Create a professional product mockup of " ++ product.name ++ ", a " ++ product.type ++ ". "
  ++ "Product details: " ++ product.description ++ ". "
  ++ (if jsTruthyStr product.branding then
        "Display the text " ++ "\"" ++ product.branding.getD "" ++ "\""
        ++ " prominently on the product. "
      else "")
  ++ "Setting: " ++ setting.environment ++ " environment with " ++ setting.background ++ " background. "
  ++ "Camera angle: " ++ setting.angle ++ " view. "
  ++ "Lighting: " ++ jsOrStr (style.map (·.lighting)) "studio-professional" ++ ". "
  ++ mockupColorClause style
  ++ "Ultra-realistic commercial product photography with sharp focus and professional presentation. "
  ++ "High-resolution quality suitable for e-commerce listings and marketing materials."

/-! ## Prompt compiler: `generateFoodPhotography` (photography-enhanced.ts) -/

structure Dish where
  name : String
  description : String
  cuisine : Option String := none
  category : Option String := none

structure FoodPhotography where
  style : String
  lighting : String
  props : Option (List String) := none
  steam : Option Bool := none
  garnish : Option String := none

/-- `technical` object; `lens` and `aperture` carry the zod defaults applied
when the object is supplied without them. -/
structure FoodTechnical where
  lens : String := "macro-100mm"
  aperture : String := "shallow-f1.8"
  focus : Option String := none

structure FoodBusiness where
  purpose : String
  brand : String
  audience : String

/-- The `lensSpecs` lookup object; `none` for a key with no entry
(a JS property access yielding `undefined`). -/
def lensSpecs : String → Option String
  | "macro-100mm" => some "100mm macro lens for extreme detail"
  | "portrait-85mm" => some "85mm portrait lens with beautiful bokeh"
  | "wide-35mm" => some "35mm wide-angle lens for environmental context"
  | "standard-50mm" => some "50mm standard lens for natural perspective"
  | _ => none

/-- The `apertureEffects` lookup object. -/
def apertureEffects : String → Option String
  | "shallow-f1.8" => some "shallow depth of field (f/1.8) with creamy background blur"
  | "medium-f4" => some "moderate depth of field (f/4) balancing subject and context"
  | "deep-f8" => some "deep depth of field (f/8) keeping entire scene in focus"
  | _ => none

/-- The `brandStyles` lookup object of the food tool. -/
def brandStyles : String → Option String
  | "fine-dining" => some "elegant, sophisticated presentation with premium styling"
  | "casual" => some "approachable, warm presentation with comfortable styling"
  | "fast-casual" => some "clean, efficient presentation highlighting freshness"
  | "family" => some "generous, welcoming presentation emphasizing sharing"
  | "trendy" => some "Instagram-worthy presentation with modern styling"
  | _ => none

/-- `if (photography.garnish) ...` clause. -/
def garnishClause (garnish : Option String) : String :=
  if jsTruthyStr garnish then "Artfully garnished with " ++ garnish.getD "" ++ ". " else ""

/-- `if (technical?.focus) ...` clause; note the inner ternary tests the
(defaulted) `technical.aperture` directly. -/
def focusClause (technical : Option FoodTechnical) : String :=
  match technical with
  | some t =>
    if jsTruthyStr t.focus then
      "Sharp focus on " ++ t.focus.getD "" ++ " with "
      ++ (if t.aperture = "shallow-f1.8" then "artistic blur on secondary elements"
          else "overall sharpness") ++ ". "
    else ""
  | none => ""

/-- `if (photography.props && photography.props.length > 0) ...` clause. -/
def propsClause (props : Option (List String)) : String :=
  match props with
  | some l => if l.length = 0 then "" else
      "Styled with " ++ String.intercalate ", " l ++ " to create an inviting scene. "
  | none => ""

/-- `if (business) ...` clauses, with the `brandStyles` lookup interpolated. -/
def foodBusinessClause : Option FoodBusiness → String
  | some b =>
    "Optimized for " ++ b.purpose ++ " use in " ++ b.brand ++ " restaurant targeting "
    ++ b.audience ++ ". "
    ++ "The styling should convey " ++ tsInterp (brandStyles b.brand) ++ ", "
    ++ "with commercial food photography quality that increases order appeal by 30%. "
  | none => ""

/-- The food photography prompt constructed inside the
`generateFoodPhotography` handler (lines 121-173 of photography-enhanced.ts). -/
def generateFoodPhotographyPrompt (dish : Dish) (photography : FoodPhotography)
    (technical : Option FoodTechnical) (business : Option FoodBusiness) : String :=
  "A photorealistic " ++ photography.style ++ " food photograph of " ++ dish.name ++ ". "
  ++ dish.description ++ ", showcasing "
  ++ (if jsTruthyBool photography.steam then "rising steam and " else "") ++ "glistening, "
  ++ (if dish.category = some "dessert" then "decadent" else "fresh")
  ++ " textures that emphasize appetite appeal. "
  ++ garnishClause photography.garnish
  ++ "Illuminated by " ++ photography.lighting
  ++ " lighting with soft shadows that enhance the food's natural textures and colors. "
  ++ "Shot with " ++ tsInterp (lensSpecs (jsOrStr (technical.map (·.lens)) "macro-100mm"))
  ++ " using " ++ tsInterp (apertureEffects (jsOrStr (technical.map (·.aperture)) "shallow-f1.8"))
  ++ ". "
  ++ focusClause technical
  ++ propsClause photography.props
  ++ foodBusinessClause business
  ++ "Ultra-high resolution with perfect color accuracy, suitable for menu printing and digital marketing."

/-! ## Tool handlers: response processing, persistence, result envelope -/

/-- The MCP tool return value: its single text content and the `isError` flag
(absent on success, `true` in the catch branch). -/
structure HandlerResult where
  text : String
  isError : Bool
deriving Repr, DecidableEq

/-- Output directory resolved relative to the process anchor
(`path.join(projectRoot, "generated-images")`). -/
def outputDir : String := "generated-images"

/-- Success text of `generateMarketingImage`. -/
def marketingSuccessText (filepath : String) (styleMood purpose : Option String) : String :=
  "✅ Marketing image generated successfully!\n"
  ++ "📁 Saved to: " ++ filepath ++ "\n"
  ++ "🎯 Business Impact: " ++ jsOrStr styleMood "Professional"
  ++ " visuals can increase engagement by 40%\n"
  ++ "📱 Optimized for: " ++ jsOrStr purpose "general marketing"

/-- Text of the `generateMarketingImage` catch branch. -/
def marketingErrorText (msg : String) : String :=
  "❌ Error generating image: " ++ msg

/-- The message thrown when the first candidate yields no truthy payload. -/
def noImageDataMsg : String := "No image data received from Gemini API"

/-- The response-processing tail of the `generateMarketingImage` handler:
scan the first candidate's parts, persist the first truthy payload under
`` `marketing-${Date.now()}.png` ``, and build the MCP result.  Failures
(no payload, size limit, codec) are caught and returned with `isError`. -/
def generateMarketingImageHandler (decode : String → List Nat)
    (png : List Nat → Option (List Nat)) (styleMood purpose : Option String)
    (resp : GenerationResponse) (now : Nat) (fs : FsState) : HandlerResult × FsState :=
  match findFirstInlineData (firstCandidateParts resp) with
  | some d =>
    let filename := mkPlainFilename "marketing" now
    match saveGeneratedImage decode png outputDir d filename fs with
    | .ok (fp, fs') => ({ text := marketingSuccessText fp styleMood purpose, isError := false }, fs')
    | .error e => ({ text := marketingErrorText (saveErrorMessage e), isError := true }, fs)
  | none => ({ text := marketingErrorText noImageDataMsg, isError := true }, fs)

/-- Success text of `createBusinessLogo`. -/
def logoSuccessText (filepath : String) (style : LogoStyle) : String :=
  "✅ Business logo created successfully!\n"
  ++ "📁 Saved to: " ++ filepath ++ "\n"
  ++ "🎯 Business Impact: Professional branding increases recognition by 80%\n"
  ++ "📱 Applications: Business cards, website, social media, signage\n"
  ++ "🎨 Style: " ++ style.type ++ " design for " ++ jsOrStr style.industry "your industry"

/-- Text of the `createBusinessLogo` catch branch. -/
def logoErrorText (msg : String) : String :=
  "❌ Error creating logo: " ++ msg

/-- Response-processing tail of the `createBusinessLogo` handler. -/
def createBusinessLogoHandler (decode : String → List Nat)
    (png : List Nat → Option (List Nat)) (businessName : String) (style : LogoStyle)
    (resp : GenerationResponse) (now : Nat) (fs : FsState) : HandlerResult × FsState :=
  match findFirstInlineData (firstCandidateParts resp) with
  | some d =>
    let filename := mkSlugFilename "logo" businessName now
    match saveGeneratedImage decode png outputDir d filename fs with
    | .ok (fp, fs') => ({ text := logoSuccessText fp style, isError := false }, fs')
    | .error e => ({ text := logoErrorText (saveErrorMessage e), isError := true }, fs)
  | none => ({ text := logoErrorText noImageDataMsg, isError := true }, fs)

/-! ## Validation of `createBusinessLogo` requests

The closed enumerations come from the tool's zod `inputSchema` in index.ts.
The enforcement point (the MCP SDK validates the arguments against the
schema before invoking the handler, so a schema violation produces an error
with zero network calls and zero writes) is not part of this repository's
sources; it is modelled from the spec below (`runCreateBusinessLogo`). -/

inductive ValidationError where
  | missing (field : String)
  | invalidValue (field : String)
deriving Repr, DecidableEq

def logoTypeEnum : List String := ["modern", "classic", "minimalist", "creative", "corporate"]

def logoIndustryEnum : List String :=
  ["tech", "food", "healthcare", "finance", "creative", "retail", "other"]

def logoBackgroundEnum : List String := ["transparent", "white", "black", "colored"]

def logoOrientationEnum : List String := ["horizontal", "vertical", "square"]

/-- A raw (not yet validated) `createBusinessLogo` style group. -/
structure RawLogoStyle where
  type : Option String := none
  industry : Option String := none
  colors : Option (List String) := none
  includeIcon : Option Bool := none
  iconDescription : Option String := none

/-- A raw `createBusinessLogo` format group. -/
structure RawLogoFormat where
  background : Option String := none
  orientation : Option String := none

/-- A raw `createBusinessLogo` request as received from the caller. -/
structure RawLogoRequest where
  businessName : Option String := none
  tagline : Option String := none
  style : Option RawLogoStyle := none
  format : Option RawLogoFormat := none

/-- Check an optional closed-enumeration field. -/
def checkEnumOpt (field : String) (v : Option String) (allowed : List String) :
    Except ValidationError (Option String) :=
  match v with
  | none => .ok none
  | some s => if s ∈ allowed then .ok (some s) else .error (.invalidValue field)

/-- Check an optional enumeration field carrying a zod default. -/
def checkEnumDefault (field : String) (v : Option String) (allowed : List String)
    (dflt : String) : Except ValidationError String :=
  match v with
  | none => .ok dflt
  | some s => if s ∈ allowed then .ok s else .error (.invalidValue field)

/-- Validation of the optional `format` group, applying the zod defaults. -/
def validateLogoFormat : Option RawLogoFormat → Except ValidationError (Option LogoFormat)
  | none => .ok none
  | some f =>
    match checkEnumDefault "format.background" f.background logoBackgroundEnum "white" with
    | .error e => .error e
    | .ok bg =>
      match checkEnumDefault "format.orientation" f.orientation logoOrientationEnum "horizontal" with
      | .error e => .error e
      | .ok ori => .ok (some ⟨bg, ori⟩)

/-- Structural validation of a raw logo request against the zod
`inputSchema` of `createBusinessLogo`: required fields present, enumerated
fields within their closed sets, defaults for the `format` group. -/
def validateLogoRequest (raw : RawLogoRequest) :
    Except ValidationError (String × Option String × LogoStyle × Option LogoFormat) :=
  match raw.businessName with
  | none => .error (.missing "businessName")
  | some businessName =>
    match raw.style with
    | none => .error (.missing "style")
    | some st =>
      match st.type with
      | none => .error (.missing "style.type")
      | some ty =>
        if ty ∈ logoTypeEnum then
          match checkEnumOpt "style.industry" st.industry logoIndustryEnum with
          | .error e => .error e
          | .ok industry =>
            match validateLogoFormat raw.format with
            | .error e => .error e
            | .ok format =>
              .ok (businessName, raw.tagline,
                { type := ty, industry := industry, colors := st.colors,
                  includeIcon := st.includeIcon, iconDescription := st.iconDescription }, format)
        else .error (.invalidValue "style.type")

/-- Modelled from the spec: the transport layer's validation-failure
envelope, a structured error naming the offending field, returned before
the handler runs. -/
def validationErrorText : ValidationError → String
  | .missing f => "Invalid arguments: " ++ f ++ " is required"
  | .invalidValue f => "Invalid arguments: invalid value for " ++ f

/-- Modelled from the spec: the full `createBusinessLogo` invocation as
dispatched by the transport layer, which checks the request against the
tool's `inputSchema` to completion before any network or filesystem
operation ("Schema violations surface before any external call").  The
middle component counts invocations of the generative service. -/
def runCreateBusinessLogo (decode : String → List Nat)
    (png : List Nat → Option (List Nat)) (raw : RawLogoRequest)
    (resp : GenerationResponse) (now : Nat) (fs : FsState) :
    HandlerResult × Nat × FsState :=
  match validateLogoRequest raw with
  | .error e => ({ text := validationErrorText e, isError := true }, 0, fs)
  | .ok (businessName, _tagline, style, _format) =>
    let (r, fs') := createBusinessLogoHandler decode png businessName style resp now fs
    (r, 1, fs')

/-! ## Specification vocabulary -/

/-- `needle` occurs verbatim as a contiguous substring of `haystack`. -/
def strContains (haystack needle : String) : Prop :=
  ∃ a b : String, haystack = a ++ needle ++ b

/-- A string wrapped in double quotes, as the prompts render literal text. -/
def quoted (s : String) : String := "\"" ++ s ++ "\""

/-- Sample dish for concrete evaluations. -/
def exDish : Dish :=
  { name := "Amatriciana", description := "Bucatini in tomato sauce" }

/-- Sample photography group for concrete evaluations. -/
def exFoodPhoto : FoodPhotography :=
  { style := "overhead", lighting := "natural-window" }

/-- A `technical` group whose `lens` value has drifted out of the
`lensSpecs` table (no entry for this key). -/
def exDriftedTechnical : FoodTechnical :=
  { lens := "telephoto-200mm", aperture := "shallow-f1.8" }

/-! ## Helper lemmas -/

/-- A scan over parts none of which passes the truthiness test yields nothing. -/
theorem findFirstInlineData_eq_none {ps : List Part}
    (h : ∀ p ∈ ps, partHasPayload p = false) : findFirstInlineData ps = none := by
  induction ps with
  | nil => rfl
  | cons p ps ih =>
    have hp := h p (List.mem_cons_self ..)
    have hps : ∀ q ∈ ps, partHasPayload q = false :=
      fun q hq => h q (List.mem_cons_of_mem _ hq)
    cases hmatch : p.inlineData with
    | none => simp [findFirstInlineData, hmatch, ih hps]
    | some d =>
      have hd : d = "" := by simpa [partHasPayload, hmatch] using hp
      simp [findFirstInlineData, hmatch, hd, ih hps]

/-! ## Claims -/

/-- C1: the invoker scans only the first candidate's parts, in order, and
returns the payload of the first part whose inline data passes the
truthiness test; for candidate 0 shaped `[text, inlineData, inlineData2]`
it returns `inlineData`'s bytes whatever `inlineData2`, the remaining parts
and the later candidates contain. -/
theorem firstCandidate_firstPayload_extraction :
    (∀ (c : Candidate) (rest : List Candidate),
      firstCandidateParts ⟨c :: rest⟩ = c.parts) ∧
    (∀ (t d1 d2 : String) (extra : List Part) (rest : List Candidate), d1 ≠ "" →
      findFirstInlineData (firstCandidateParts
        ⟨⟨mkTextPart t :: mkInlinePart d1 :: mkInlinePart d2 :: extra⟩ :: rest⟩) = some d1) := by
  refine ⟨fun c rest => rfl, fun t d1 d2 extra rest h => ?_⟩
  simp [firstCandidateParts, findFirstInlineData, mkTextPart, mkInlinePart, h]

/-- Witness for C1 at a concrete response. -/
theorem firstCandidate_firstPayload_extraction_witness :
    findFirstInlineData (firstCandidateParts
      ⟨⟨mkTextPart "caption" :: mkInlinePart "AAAA" :: mkInlinePart "BBBB" :: ([] : List Part)⟩
        :: ([] : List Candidate)⟩) = some "AAAA" :=
  firstCandidate_firstPayload_extraction.2 "caption" "AAAA" "BBBB" [] [] (by decide)

/-- C2: a payload whose decoded length exceeds 50 MiB makes persistence fail
with the distinct size-limit error (no file recorded); a payload within the
limit that the codec accepts is written, and the recorded byte length is
the re-encoded output's length. -/
theorem saveGeneratedImage_size_enforcement (decode : String → List Nat)
    (png : List Nat → Option (List Nat)) (dir data fn : String) (fs : FsState) :
    (sizeLimitBytes < (decode data).length →
      saveGeneratedImage decode png dir data fn fs = .error .sizeLimit) ∧
    (∀ out, (decode data).length ≤ sizeLimitBytes → png (decode data) = some out →
      saveGeneratedImage decode png dir data fn fs =
        .ok (dir ++ "/" ++ fn, ⟨(dir ++ "/" ++ fn, out.length) :: fs.files⟩)) := by
  constructor
  · intro h
    simp [saveGeneratedImage, h]
  · intro out h1 h2
    simp [saveGeneratedImage, Nat.not_lt.mpr h1, h2]

/-- Witness for C2: an oversized decode is rejected, a small accepted
payload is recorded at the re-encoded length. -/
theorem saveGeneratedImage_size_enforcement_witness :
    (saveGeneratedImage (fun _ => List.replicate (sizeLimitBytes + 1) 0) (fun b => some b)
      "generated-images" "payload" "a.png" ⟨[]⟩ = .error .sizeLimit) ∧
    (saveGeneratedImage (fun _ => [7, 7]) (fun b => some (0 :: b))
      "generated-images" "payload" "a.png" ⟨[]⟩ =
      .ok ("generated-images" ++ "/" ++ "a.png", ⟨[("generated-images" ++ "/" ++ "a.png", 3)]⟩)) := by
  constructor
  · exact (saveGeneratedImage_size_enforcement _ _ _ _ _ _).1 (by simp)
  · exact (saveGeneratedImage_size_enforcement _ _ _ _ _ _).2 [0, 7, 7]
      (by norm_num [sizeLimitBytes]) rfl

/-- C3: prompt compilation is a pure, deterministic function of the
validated request — compiling the same request twice yields identical
strings (shown for the index.ts photography compiler and the
photography-enhanced.ts food compiler). -/
theorem promptCompilation_deterministic :
    (∀ config : PhotoConfig, buildPhotographyPrompt config = buildPhotographyPrompt config) ∧
    (∀ (d : Dish) (p : FoodPhotography) (t : Option FoodTechnical) (b : Option FoodBusiness),
      generateFoodPhotographyPrompt d p t b = generateFoodPhotographyPrompt d p t b) :=
  ⟨fun _ => rfl, fun _ _ _ _ => rfl⟩

/-- C8: a response whose first candidate yields no truthy inline payload
(zero candidates included) makes the handler return the
"No image data received from Gemini API" error with the failure flag set
and the file table unchanged. -/
theorem noPayload_invocation_error (decode : String → List Nat)
    (png : List Nat → Option (List Nat)) (styleMood purpose : Option String)
    (resp : GenerationResponse) (now : Nat) (fs : FsState) :
    findFirstInlineData (firstCandidateParts resp) = none →
    generateMarketingImageHandler decode png styleMood purpose resp now fs =
      ({ text := marketingErrorText noImageDataMsg, isError := true }, fs) := by
  intro h
  simp [generateMarketingImageHandler, h]

/-- Witness for C8 at the zero-candidate response. -/
theorem noPayload_invocation_error_witness :
    generateMarketingImageHandler (fun _ => []) (fun b => some b) none none ⟨[]⟩ 0 ⟨[]⟩ =
      ({ text := marketingErrorText noImageDataMsg, isError := true }, (⟨[]⟩ : FsState)) :=
  noPayload_invocation_error _ _ _ _ _ _ _ rfl

/-- C10: an inline payload equal to the empty string is skipped by the scan
exactly as a payload-free part is, and if no other part of the first
candidate carries non-empty data the invocation ends in the no-image-data
error with no file written. -/
theorem emptyInlineData_skipped :
    (∀ ps : List Part, findFirstInlineData (mkInlinePart "" :: ps) = findFirstInlineData ps) ∧
    (∀ (decode : String → List Nat) (png : List Nat → Option (List Nat))
      (styleMood purpose : Option String) (ps : List Part) (rest : List Candidate)
      (now : Nat) (fs : FsState),
      (∀ p ∈ ps, partHasPayload p = false) →
      generateMarketingImageHandler decode png styleMood purpose
          ⟨⟨mkInlinePart "" :: ps⟩ :: rest⟩ now fs =
        ({ text := marketingErrorText noImageDataMsg, isError := true }, fs)) := by
  constructor
  · intro ps
    simp [findFirstInlineData, mkInlinePart]
  · intro decode png styleMood purpose ps rest now fs h
    have hnone : findFirstInlineData (firstCandidateParts ⟨⟨mkInlinePart "" :: ps⟩ :: rest⟩) = none := by
      have : findFirstInlineData ps = none := findFirstInlineData_eq_none h
      simp [firstCandidateParts, findFirstInlineData, mkInlinePart, this]
    simp [generateMarketingImageHandler, hnone]

/-- Witness for C10: an empty inline payload followed by a text part ends in
the no-image-data error. -/
theorem emptyInlineData_skipped_witness :
    generateMarketingImageHandler (fun _ => []) (fun b => some b) none none
        ⟨⟨mkInlinePart "" :: [mkTextPart "x"]⟩ :: ([] : List Candidate)⟩ 0 ⟨[]⟩ =
      ({ text := marketingErrorText noImageDataMsg, isError := true }, (⟨[]⟩ : FsState)) :=
  emptyInlineData_skipped.2 _ _ _ _ [mkTextPart "x"] [] 0 ⟨[]⟩ (by decide)

/-! ### Characters, digit strings and the filename timestamp -/

theorem char_toNat_ofNat_of_lt {m : Nat} (h : m < 55296) : (Char.ofNat m).toNat = m := by
  unfold Char.ofNat
  rw [dif_pos (Or.inl h)]
  rfl

theorem digitVal_digitChar {d : Nat} (h : d < 10) : digitVal (digitChar d) = d := by
  unfold digitVal digitChar
  rw [char_toNat_ofNat_of_lt (by omega)]
  omega

theorem digitChar_isDigit {d : Nat} (h : d < 10) : isDigitChar (digitChar d) = true := by
  unfold isDigitChar digitChar
  rw [char_toNat_ofNat_of_lt (by omega)]
  simp
  omega

theorem digitChar_ne_dash {d : Nat} (h : d < 10) : digitChar d ≠ '-' := by
  intro he
  have h45 : (digitChar d).toNat = 45 := by rw [he]; rfl
  rw [digitChar, char_toNat_ofNat_of_lt (by omega)] at h45
  omega

theorem natToString_chars {n : Nat} :
    ∀ c ∈ (natToString n).data, isDigitChar c = true ∧ c ≠ '-' := by
  intro c hc
  unfold natToString at hc
  by_cases h0 : n = 0
  · simp [h0] at hc
    subst hc
    exact ⟨by decide, by decide⟩
  · simp [h0] at hc
    obtain ⟨d, hd, rfl⟩ := hc
    have hd10 : d < 10 := Nat.digits_lt_base (by norm_num) hd
    exact ⟨digitChar_isDigit hd10, digitChar_ne_dash hd10⟩

theorem map_eq_self_of_forall {α : Type} (f : α → α) :
    ∀ (l : List α), (∀ a ∈ l, f a = a) → l.map f = l := by
  intro l
  induction l with
  | nil => intro _; rfl
  | cons x xs ih =>
    intro h
    simp [h x (List.mem_cons_self ..), ih (fun a ha => h a (List.mem_cons_of_mem _ ha))]

theorem digitsVal_natToString (n : Nat) : digitsVal (natToString n).data = n := by
  unfold digitsVal natToString
  by_cases h0 : n = 0
  · subst h0; rfl
  · simp only [h0, if_false]
    show Nat.ofDigits 10 ((((Nat.digits 10 n).map digitChar).reverse).reverse.map digitVal) = n
    rw [List.reverse_reverse, List.map_map]
    rw [map_eq_self_of_forall (digitVal ∘ digitChar) (Nat.digits 10 n)
      (fun d hd => digitVal_digitChar (Nat.digits_lt_base (by norm_num) hd))]
    exact Nat.ofDigits_digits 10 n

theorem stripExt_append (a : List Char) (s : String)
    (h : s.data = a ++ ['.', 'p', 'n', 'g']) : stripExt s = a := by
  unfold stripExt
  rw [h]
  have hl : (a ++ ['.', 'p', 'n', 'g']).length - 4 = a.length := by simp
  rw [hl, List.take_left]

theorem takeWhile_append_all {α : Type} (p : α → Bool) (a b : List α)
    (h : ∀ x ∈ a, p x = true) : (a ++ b).takeWhile p = a ++ b.takeWhile p := by
  induction a with
  | nil => simp
  | cons x xs ih =>
    have hx := h x (List.mem_cons_self ..)
    simp [List.takeWhile_cons, hx, ih (fun y hy => h y (List.mem_cons_of_mem _ hy))]

theorem afterLastDash_append (pre ds : List Char) (h : ∀ c ∈ ds, c ≠ '-') :
    afterLastDash (pre ++ '-' :: ds) = ds := by
  unfold afterLastDash
  rw [List.reverse_append, List.reverse_cons, List.append_assoc]
  rw [takeWhile_append_all _ ds.reverse _
    (fun x hx => by simp [h x (List.mem_reverse.mp hx)])]
  have hstop : ((['-'] ++ pre.reverse).takeWhile (fun c => c != '-')) = [] := by
    simp [List.takeWhile_cons]
  rw [hstop, List.append_nil, List.reverse_reverse]

theorem timestampOf_mkSlugFilename (pfx src : String) (t : Nat) :
    timestampOf (mkSlugFilename pfx src t) = t := by
  have hdash : ("-" : String).data = ['-'] := rfl
  have hpng : (".png" : String).data = ['.', 'p', 'n', 'g'] := rfl
  have hdata : (mkSlugFilename pfx src t).data
      = ((pfx.data ++ '-' :: (sanitizeSlug src).data) ++ '-' :: (natToString t).data)
        ++ ['.', 'p', 'n', 'g'] := by
    simp [mkSlugFilename, String.data_append, hdash, hpng, List.append_assoc]
  unfold timestampOf
  rw [stripExt_append _ _ hdata]
  rw [afterLastDash_append _ _ (fun c hc => (natToString_chars c hc).2)]
  exact digitsVal_natToString t

theorem sanitizeSlug_chars (s : String) :
    ∀ c ∈ (sanitizeSlug s).data, isLowerAlnumOrDash c = true := by
  intro c hc
  have hc' : c ∈ (s.data.map jsReplaceNonAlnum).map jsLowerChar := hc
  simp only [List.mem_map] at hc'
  obtain ⟨c1, ⟨c0, -, rfl⟩, rfl⟩ := hc'
  unfold jsReplaceNonAlnum jsLowerChar isLowerAlnumOrDash
  by_cases h1 : 65 ≤ c0.toNat ∧ c0.toNat ≤ 90
  · rw [if_pos (Or.inl h1), if_pos h1]
    have ht : (Char.ofNat (c0.toNat + 32)).toNat = c0.toNat + 32 :=
      char_toNat_ofNat_of_lt (by omega)
    simp only [ht, Bool.or_eq_true, Bool.and_eq_true, decide_eq_true_eq]
    left
    omega
  · by_cases h2 : (97 ≤ c0.toNat ∧ c0.toNat ≤ 122) ∨ (48 ≤ c0.toNat ∧ c0.toNat ≤ 57)
    · rw [if_pos (Or.inr h2), if_neg h1]
      simp only [Bool.or_eq_true, Bool.and_eq_true, decide_eq_true_eq]
      tauto
    · have hno : ¬((65 ≤ c0.toNat ∧ c0.toNat ≤ 90) ∨ (97 ≤ c0.toNat ∧ c0.toNat ≤ 122) ∨
          (48 ≤ c0.toNat ∧ c0.toNat ≤ 57)) := by tauto
      rw [if_neg hno]
      decide

/-- C6: a slugged filename has the shape
`{domain-prefix}-{sanitized-slug}-{digits}.png`, the sanitized slug only
contains ASCII lowercase letters, digits and hyphens, the suffix is the
decimal rendering of the timestamp, and its numeric value strictly
increases across invocations issued at strictly increasing times. -/
theorem filename_shape_and_monotonicity (pfx src : String) (t t1 t2 : Nat) (h : t1 < t2) :
    mkSlugFilename pfx src t
      = pfx ++ "-" ++ sanitizeSlug src ++ "-" ++ natToString t ++ ".png" ∧
    (∀ c ∈ (sanitizeSlug src).data, isLowerAlnumOrDash c = true) ∧
    (∀ c ∈ (natToString t).data, isDigitChar c = true) ∧
    timestampOf (mkSlugFilename pfx src t1) < timestampOf (mkSlugFilename pfx src t2) := by
  refine ⟨rfl, sanitizeSlug_chars src, fun c hc => (natToString_chars c hc).1, ?_⟩
  rw [timestampOf_mkSlugFilename, timestampOf_mkSlugFilename]
  exact h

/-- Witness for C6 at a concrete business name and two ordered timestamps. -/
theorem filename_shape_and_monotonicity_witness :
    mkSlugFilename "logo" "Acme Co!" 5
      = "logo" ++ "-" ++ sanitizeSlug "Acme Co!" ++ "-" ++ natToString 5 ++ ".png" ∧
    (∀ c ∈ (sanitizeSlug "Acme Co!").data, isLowerAlnumOrDash c = true) ∧
    (∀ c ∈ (natToString 5).data, isDigitChar c = true) ∧
    timestampOf (mkSlugFilename "logo" "Acme Co!" 3)
      < timestampOf (mkSlugFilename "logo" "Acme Co!" 7) :=
  filename_shape_and_monotonicity "logo" "Acme Co!" 5 3 7 (by decide)

/-- C7: a logo request whose `style` group lacks the required `type` field
fails validation with an error naming `style.type`, with zero calls to the
generative service and zero files written. -/
theorem validation_before_invocation (decode : String → List Nat)
    (png : List Nat → Option (List Nat)) (raw : RawLogoRequest)
    (resp : GenerationResponse) (now : Nat) (fs : FsState)
    (n : String) (st : RawLogoStyle) :
    raw.businessName = some n → raw.style = some st → st.type = none →
    runCreateBusinessLogo decode png raw resp now fs =
      ({ text := validationErrorText (.missing "style.type"), isError := true }, 0, fs) := by
  intro h1 h2 h3
  simp [runCreateBusinessLogo, validateLogoRequest, h1, h2, h3]

/-- Witness for C7 at a concrete request with no `style.type`. -/
theorem validation_before_invocation_witness :
    runCreateBusinessLogo (fun _ => []) (fun b => some b)
        { businessName := some "Acme", style := some {} }
        ⟨[]⟩ 0 ⟨[]⟩ =
      ({ text := validationErrorText (.missing "style.type"), isError := true }, 0,
        (⟨[]⟩ : FsState)) :=
  validation_before_invocation _ _ _ _ _ _ "Acme" {} rfl rfl rfl

/-! ### Substring containment helpers -/

theorem contains_head (n b : String) : strContains (n ++ b) n :=
  ⟨"", b, by simp⟩

theorem contains_cons (a : String) {b n : String} (h : strContains b n) :
    strContains (a ++ b) n := by
  obtain ⟨x, y, rfl⟩ := h
  exact ⟨a ++ x, y, by simp [String.append_assoc]⟩

theorem contains_quoted_head (name rest : String) :
    strContains ("\"" ++ (name ++ ("\"" ++ rest))) (quoted name) :=
  ⟨"", rest, by simp [quoted, String.append_assoc]⟩

theorem contains_triple_head (x y z rest : String) :
    strContains (x ++ (y ++ (z ++ rest))) (x ++ y ++ z) :=
  ⟨"", rest, by simp [String.append_assoc]⟩

/-- A supplied lens value with no `lensSpecs` entry reaches the prompt as the
JS interpolation of `undefined`: the fragment `Shot with undefined using `
is emitted, not a named fallback clause. -/
theorem foodPrompt_undefined_of_missing_lens (d : Dish) (p : FoodPhotography)
    (b : Option FoodBusiness) (v ap : String) (foc : Option String)
    (hne : v ≠ "") (hmiss : lensSpecs v = none) :
    strContains
      (generateFoodPhotographyPrompt d p (some { lens := v, aperture := ap, focus := foc }) b)
      ("Shot with " ++ "undefined" ++ " using ") := by
  simp only [generateFoodPhotographyPrompt, Option.map_some', jsOrStr, if_neg hne, hmiss,
    tsInterp, Option.getD_none, String.append_assoc]
  repeat first
    | exact contains_triple_head _ _ _ _
    | apply contains_cons

/-- C4 (verbatim preservation): the literal business name, a truthy tagline
and a truthy product branding text appear inside double quotes, unmodified,
in the compiled logo and mockup prompts. -/
theorem verbatim_literal_text (businessName : String) (tagline : Option String)
    (style : LogoStyle) (format : Option LogoFormat)
    (product : MockupProduct) (setting : MockupSetting) (mstyle : Option MockupStyle) :
    strContains (createBusinessLogoPrompt businessName tagline style format)
      (quoted businessName) ∧
    (∀ tg, tagline = some tg → tg ≠ "" →
      strContains (createBusinessLogoPrompt businessName tagline style format) (quoted tg)) ∧
    (∀ br, product.branding = some br → br ≠ "" →
      strContains (createProductMockupPrompt product setting mstyle) (quoted br)) := by
  refine ⟨?_, ?_, ?_⟩
  · simp only [createBusinessLogoPrompt, String.append_assoc]
    repeat first
      | exact contains_quoted_head _ _
      | apply contains_cons
  · intro tg htg hne
    have hb : (tg != "") = true := bne_iff_ne.mpr hne
    subst htg
    simp only [createBusinessLogoPrompt, jsTruthyStr, hb, if_true, Option.getD_some,
      String.append_assoc]
    repeat first
      | exact contains_quoted_head _ _
      | apply contains_cons
  · intro br hbr hne
    have hb : (br != "") = true := bne_iff_ne.mpr hne
    simp only [createProductMockupPrompt, hbr, jsTruthyStr, hb, if_true, Option.getD_some,
      String.append_assoc]
    repeat first
      | exact contains_quoted_head _ _
      | apply contains_cons

/-- Witness for C4 at concrete name, tagline and branding text. -/
theorem verbatim_literal_text_witness :
    strContains
      (createBusinessLogoPrompt "Acme" (some "Fly High") { type := "modern" } none)
      (quoted "Acme") ∧
    strContains
      (createBusinessLogoPrompt "Acme" (some "Fly High") { type := "modern" } none)
      (quoted "Fly High") ∧
    strContains
      (createProductMockupPrompt
        { name := "Jar", type := "bottle", description := "glass jar", branding := some "AcmeJam" }
        { environment := "studio", background := "white", angle := "front" } none)
      (quoted "AcmeJam") :=
  ⟨(verbatim_literal_text "Acme" (some "Fly High") { type := "modern" } none
      { name := "Jar", type := "bottle", description := "glass jar", branding := some "AcmeJam" }
      { environment := "studio", background := "white", angle := "front" } none).1,
   (verbatim_literal_text "Acme" (some "Fly High") { type := "modern" } none
      { name := "Jar", type := "bottle", description := "glass jar", branding := some "AcmeJam" }
      { environment := "studio", background := "white", angle := "front" } none).2.1
      "Fly High" rfl (by decide),
   (verbatim_literal_text "Acme" (some "Fly High") { type := "modern" } none
      { name := "Jar", type := "bottle", description := "glass jar", branding := some "AcmeJam" }
      { environment := "studio", background := "white", angle := "front" } none).2.2
      "AcmeJam" rfl (by decide)⟩

/-- C5 counterexample: for the categorical lens value `telephoto-200mm`,
which has no `lensSpecs` entry, the compiled food prompt contains the
fragment `Shot with undefined using ` — the JS `undefined` leak — so no
named fallback clause is substituted for the missing entry. -/
theorem missing_lookup_no_fallback_counterexample :
    lensSpecs "telephoto-200mm" = none ∧
    strContains
      (generateFoodPhotographyPrompt exDish exFoodPhoto (some exDriftedTechnical) none)
      ("Shot with " ++ "undefined" ++ " using ") :=
  ⟨rfl, foodPrompt_undefined_of_missing_lens exDish exFoodPhoto none
    "telephoto-200mm" "shallow-f1.8" none (by decide) rfl⟩

/-- C5 as amended: a supplied categorical value with no lookup-table entry
is not replaced by a named fallback clause; the compiler interpolates the
literal text `undefined` into the prompt (the `|| default` fallbacks apply
only to absent optional fields, not to missing table entries). -/
theorem missing_lookup_renders_undefined (d : Dish) (p : FoodPhotography)
    (b : Option FoodBusiness) (v ap : String) (foc : Option String)
    (hne : v ≠ "") (hmiss : lensSpecs v = none) :
    strContains
      (generateFoodPhotographyPrompt d p (some { lens := v, aperture := ap, focus := foc }) b)
      ("Shot with " ++ "undefined" ++ " using ") :=
  foodPrompt_undefined_of_missing_lens d p b v ap foc hne hmiss

/-- Witness for the amended C5 at the drifted lens value. -/
theorem missing_lookup_renders_undefined_witness :
    strContains
      (generateFoodPhotographyPrompt exDish exFoodPhoto
        (some { lens := "zoom-24-70mm", aperture := "medium-f4", focus := none }) none)
      ("Shot with " ++ "undefined" ++ " using ") :=
  missing_lookup_renders_undefined exDish exFoodPhoto none
    "zoom-24-70mm" "medium-f4" none (by decide) rfl

/-- C9 (defaulting completeness): every optional field absent from a request
is rendered through its documented default clause, so the compiled prompt
never carries an empty clause: shown for all six optional fields of the
index.ts photography compiler and for the defaults `macro-100mm` /
`shallow-f1.8` taken when the food tool's `technical` group is absent. -/
theorem defaulting_completeness (config : PhotoConfig) (d : Dish) (p : FoodPhotography)
    (b : Option FoodBusiness) :
    (config.shotType = none →
      strContains (buildPhotographyPrompt config) "professional shot") ∧
    (config.environment = none →
      strContains (buildPhotographyPrompt config) "clean, professional environment") ∧
    (config.lighting = none →
      strContains (buildPhotographyPrompt config) "studio three-point lighting") ∧
    (config.mood = none →
      strContains (buildPhotographyPrompt config) "professional and trustworthy") ∧
    (config.lens = none →
      strContains (buildPhotographyPrompt config) "85mm portrait lens") ∧
    (config.technical = none →
      strContains (buildPhotographyPrompt config) "sharp focus with perfect exposure") ∧
    strContains (generateFoodPhotographyPrompt d p none b)
      "100mm macro lens for extreme detail" ∧
    strContains (generateFoodPhotographyPrompt d p none b)
      "shallow depth of field (f/1.8) with creamy background blur" := by
  have hlens : lensSpecs "macro-100mm" = some "100mm macro lens for extreme detail" := rfl
  have hap : apertureEffects "shallow-f1.8"
      = some "shallow depth of field (f/1.8) with creamy background blur" := rfl
  refine ⟨?_, ?_, ?_, ?_, ?_, ?_, ?_, ?_⟩
  · intro h
    simp only [buildPhotographyPrompt, h, Option.getD_none, String.append_assoc]
    repeat first
      | exact contains_head _ _
      | apply contains_cons
  · intro h
    simp only [buildPhotographyPrompt, h, Option.getD_none, String.append_assoc]
    repeat first
      | exact contains_head _ _
      | apply contains_cons
  · intro h
    simp only [buildPhotographyPrompt, h, Option.getD_none, String.append_assoc]
    repeat first
      | exact contains_head _ _
      | apply contains_cons
  · intro h
    simp only [buildPhotographyPrompt, h, Option.getD_none, String.append_assoc]
    repeat first
      | exact contains_head _ _
      | apply contains_cons
  · intro h
    simp only [buildPhotographyPrompt, h, Option.getD_none, String.append_assoc]
    repeat first
      | exact contains_head _ _
      | apply contains_cons
  · intro h
    simp only [buildPhotographyPrompt, h, Option.getD_none, String.append_assoc]
    repeat first
      | exact contains_head _ _
      | apply contains_cons
  · simp only [generateFoodPhotographyPrompt, Option.map_none', jsOrStr, hlens, hap,
      tsInterp, Option.getD_some, focusClause, String.append_assoc]
    repeat first
      | exact contains_head _ _
      | apply contains_cons
  · simp only [generateFoodPhotographyPrompt, Option.map_none', jsOrStr, hlens, hap,
      tsInterp, Option.getD_some, focusClause, String.append_assoc]
    repeat first
      | exact contains_head _ _
      | apply contains_cons

/-- Witness for C9 on a request with every optional field absent. -/
theorem defaulting_completeness_witness :
    strContains (buildPhotographyPrompt { subject := "a red bicycle" }) "professional shot" ∧
    strContains (buildPhotographyPrompt { subject := "a red bicycle" })
      "clean, professional environment" ∧
    strContains (buildPhotographyPrompt { subject := "a red bicycle" })
      "studio three-point lighting" ∧
    strContains (buildPhotographyPrompt { subject := "a red bicycle" })
      "professional and trustworthy" ∧
    strContains (buildPhotographyPrompt { subject := "a red bicycle" }) "85mm portrait lens" ∧
    strContains (buildPhotographyPrompt { subject := "a red bicycle" })
      "sharp focus with perfect exposure" ∧
    strContains (generateFoodPhotographyPrompt exDish exFoodPhoto none none)
      "100mm macro lens for extreme detail" ∧
    strContains (generateFoodPhotographyPrompt exDish exFoodPhoto none none)
      "shallow depth of field (f/1.8) with creamy background blur" := by
  have h := defaulting_completeness { subject := "a red bicycle" } exDish exFoodPhoto none
  exact ⟨h.1 rfl, h.2.1 rfl, h.2.2.1 rfl, h.2.2.2.1 rfl, h.2.2.2.2.1 rfl,
    h.2.2.2.2.2.1 rfl, h.2.2.2.2.2.2.1, h.2.2.2.2.2.2.2⟩

end GeminiImageMcp
